import Mathlib

/-!
Shallow embedding of the AIyos backend (Django REST application) used to
check the natural-language specification against the code.

Sources embedded:
  backend/authentication/models.py  (User, subscription tiers, AI limits)
  backend/ai_services/models.py     (AIProvider, AIModel, AIRequest, AIUsageQuota)
  backend/ai_services/services.py   (OpenRouterService)
  backend/ai_services/views.py      (AI endpoints)
  backend/automations/models.py     (AutomationWorkflow, AutomationAction,
                                     WorkflowExecution, AutomationTemplate)
  backend/automations/views.py      (workflow endpoints)
  backend/integrations/views.py     (integration endpoints)

Conventions: database integer columns are Nat, Decimal/float columns are Rat,
JSON payloads are opaque String tokens, and datetimes are Nat tick values.
The external AI provider is modelled by an oracle outcome parameter; each
endpoint result records how many provider calls were attempted.
-/

namespace AIyos

/-- Subscription tiers from authentication/models.py SUBSCRIPTION_CHOICES. -/
inductive Tier where
  | starter
  | business
  | pro
deriving DecidableEq

/-- User model (authentication/models.py), restricted to the fields the
AI-usage logic reads. -/
structure User where
  id : Nat
  subscription_tier : Tier
  monthly_ai_calls : Nat
  company_name : String
deriving DecidableEq

/-- User.ai_usage_limit property: limits dict lookup with default 1000. -/
def User.ai_usage_limit (u : User) : Nat :=
  match u.subscription_tier with
  | .starter => 1000
  | .business => 5000
  | .pro => 99999

/-- User.can_use_ai method: monthly_ai_calls < ai_usage_limit. -/
def User.can_use_ai (u : User) : Bool :=
  u.monthly_ai_calls < u.ai_usage_limit

/-- Python round-half-to-even on rationals (round builtin). -/
def pyRound (x : ℚ) : ℤ :=
  let f := ⌊x⌋
  let r := x - f
  if r < 1/2 then f
  else if 1/2 < r then f + 1
  else if f % 2 = 0 then f else f + 1

/-- Python round(x, 2). -/
def pyRound2 (x : ℚ) : ℚ :=
  (pyRound (x * 100) : ℚ) / 100

/-- AIProvider model (ai_services/models.py): cost configuration. -/
structure AIProvider where
  name : String
  cost_per_input_token : ℚ
  cost_per_output_token : ℚ
deriving DecidableEq

/-- AIModel model (ai_services/models.py). -/
structure AIModel where
  provider : AIProvider
  model_id : String
deriving DecidableEq

/-- AIRequest status choices (ai_services/models.py STATUS_CHOICES). -/
inductive ReqStatus where
  | pending
  | processing
  | completed
  | failed
  | cancelled
deriving DecidableEq

/-- AIRequest model (ai_services/models.py), with the fields the service
layer writes. -/
structure AIRequest where
  id : Nat
  userId : Nat
  request_type : String
  status : ReqStatus
  input_data : String
  output_data : String
  input_tokens : Nat
  output_tokens : Nat
  total_tokens : Nat
  cost_usd : ℚ
  cost_php : ℚ
  response_time_ms : Option Nat
  error_message : String
  retry_count : Nat
deriving DecidableEq

/-- AIUsageQuota model (ai_services/models.py). -/
structure AIUsageQuota where
  user : Nat
  period_type : String
  max_requests : Nat
  max_tokens : Nat
  max_cost_usd : ℚ
  current_requests : Nat
  current_tokens : Nat
  current_cost_usd : ℚ
  is_exceeded : Bool
deriving DecidableEq

/-- AIUsageQuota.requests_percentage property. -/
def AIUsageQuota.requests_percentage (q : AIUsageQuota) : ℚ :=
  if q.max_requests = 0 then 0
  else min 100 (((q.current_requests : ℚ) / (q.max_requests : ℚ)) * 100)

/-- AIUsageQuota.tokens_percentage property. -/
def AIUsageQuota.tokens_percentage (q : AIUsageQuota) : ℚ :=
  if q.max_tokens = 0 then 0
  else min 100 (((q.current_tokens : ℚ) / (q.max_tokens : ℚ)) * 100)

/-- AIUsageQuota.cost_percentage property. -/
def AIUsageQuota.cost_percentage (q : AIUsageQuota) : ℚ :=
  if q.max_cost_usd = 0 then 0
  else min 100 ((q.current_cost_usd / q.max_cost_usd) * 100)

/-- AIUsageQuota.update_usage method: add the increments, then recompute
is_exceeded from the updated counters. -/
def AIUsageQuota.update_usage (q : AIUsageQuota) (requests tokens : Nat)
    (cost_usd : ℚ) : AIUsageQuota :=
  let cr := q.current_requests + requests
  let ct := q.current_tokens + tokens
  let cc := q.current_cost_usd + cost_usd
  { q with
    current_requests := cr
    current_tokens := ct
    current_cost_usd := cc
    is_exceeded :=
      decide (q.max_requests ≤ cr) || decide (q.max_tokens ≤ ct) ||
        decide (q.max_cost_usd ≤ cc) }

/-- Defaults used by the get_or_create call in
OpenRouterService.check_usage_quota when no quota row exists yet. -/
def defaultQuota (u : User) : AIUsageQuota :=
  { user := u.id
    period_type := "monthly"
    max_requests := u.ai_usage_limit
    max_tokens := u.ai_usage_limit * 1000
    max_cost_usd := if u.subscription_tier = .starter then 10 else 50
    current_requests := 0
    current_tokens := 0
    current_cost_usd := 0
    is_exceeded := false }

/-- Return value of OpenRouterService.check_usage_quota. -/
structure QuotaCheck where
  can_use : Bool
  requests_remaining : Nat
  requests_percentage : ℚ
  quota : AIUsageQuota
deriving DecidableEq

/-- OpenRouterService.check_usage_quota: get_or_create the current monthly
quota row, then report admission data read from it. -/
def check_usage_quota (u : User) (existing : Option AIUsageQuota) : QuotaCheck :=
  let quota := existing.getD (defaultQuota u)
  { can_use := !quota.is_exceeded && decide (quota.current_requests < quota.max_requests)
    requests_remaining := quota.max_requests - quota.current_requests
    requests_percentage := quota.requests_percentage
    quota := quota }

/-- OpenRouterService._calculate_cost. -/
def calculate_cost (model : AIModel) (input_tokens output_tokens : Nat) : ℚ :=
  model.provider.cost_per_input_token * input_tokens +
    model.provider.cost_per_output_token * output_tokens

/-- Oracle for the body of the try block in the service methods: either the
provider call succeeds with the given usage numbers and a JSON content that
parses, or some exception (API error, JSON decode error, ...) is raised. -/
inductive ApiOutcome where
  | ok (prompt_tokens completion_tokens total_tokens response_time_ms : Nat)
      (content : String)
  | exn (message : String)
deriving DecidableEq

/-- Value returned by the service methods process_email_to_task and
generate_filipino_social_content, paired with the final states of the rows
they save. providerCalls counts attempted calls to the external provider. -/
structure ProcessResult where
  success : Bool
  request : AIRequest
  user : User
  quota : AIUsageQuota
  providerCalls : Nat
  output : String
  error : Option String
deriving DecidableEq

/-- The freshly created AIRequest row (objects.create with status
processing and model defaults for the remaining columns). -/
def newAIRequest (reqId : Nat) (u : User) (rtype input_data : String) : AIRequest :=
  { id := reqId
    userId := u.id
    request_type := rtype
    status := .processing
    input_data := input_data
    output_data := ""
    input_tokens := 0
    output_tokens := 0
    total_tokens := 0
    cost_usd := 0
    cost_php := 0
    response_time_ms := none
    error_message := ""
    retry_count := 0 }

/-- OpenRouterService.process_email_to_task. Except.error models an
exception propagating to the caller (quota exhausted or no model, both
raised before the try block); Except.ok is the returned result dict. -/
def process_email_to_task (u : User) (existing : Option AIUsageQuota)
    (modelOpt : Option AIModel) (outcome : ApiOutcome) (reqId : Nat)
    (email_content : String) : Except String ProcessResult :=
  let qc := check_usage_quota u existing
  if !qc.can_use then .error "AI usage quota exceeded"
  else
    match modelOpt with
    | none => .error "No AI model available for your subscription"
    | some model =>
      let req0 := newAIRequest reqId u "email_to_task" email_content
      match outcome with
      | .exn msg =>
        .ok { success := false
              request := { req0 with status := .failed, error_message := msg }
              user := u
              quota := qc.quota
              providerCalls := 1
              output := ""
              error := some msg }
      | .ok pt ct tt rt content =>
        let cost := calculate_cost model pt ct
        .ok { success := true
              request := { req0 with
                status := .completed
                output_data := content
                input_tokens := pt
                output_tokens := ct
                total_tokens := tt
                response_time_ms := some rt
                cost_usd := cost
                cost_php := cost * 56 }
              user := { u with monthly_ai_calls := u.monthly_ai_calls + 1 }
              quota := qc.quota.update_usage 1 tt cost
              providerCalls := 1
              output := content
              error := none }

/-- OpenRouterService.generate_filipino_social_content: same control flow
as process_email_to_task with request_type content_generation. -/
def generate_filipino_social_content (u : User) (existing : Option AIUsageQuota)
    (modelOpt : Option AIModel) (outcome : ApiOutcome) (reqId : Nat)
    (business_update platform : String) : Except String ProcessResult :=
  let qc := check_usage_quota u existing
  if !qc.can_use then .error "AI usage quota exceeded"
  else
    match modelOpt with
    | none => .error "No AI model available"
    | some model =>
      let req0 := newAIRequest reqId u "content_generation"
        (business_update ++ platform)
      match outcome with
      | .exn msg =>
        .ok { success := false
              request := { req0 with status := .failed, error_message := msg }
              user := u
              quota := qc.quota
              providerCalls := 1
              output := ""
              error := some msg }
      | .ok pt ct tt rt content =>
        let cost := calculate_cost model pt ct
        .ok { success := true
              request := { req0 with
                status := .completed
                output_data := content
                input_tokens := pt
                output_tokens := ct
                total_tokens := tt
                response_time_ms := some rt
                cost_usd := cost
                cost_php := cost * 56 }
              user := { u with monthly_ai_calls := u.monthly_ai_calls + 1 }
              quota := qc.quota.update_usage 1 tt cost
              providerCalls := 1
              output := content
              error := none }

/-- HTTP-level response of the email_to_task and generate_social_content
views (ai_services/views.py). -/
structure AiViewResponse where
  http : Nat
  success : Bool
  providerCalls : Nat
  body : String
  error : Option String
  request : Option AIRequest
deriving DecidableEq

/-- email_to_task view: 402 when can_use_ai fails, otherwise call the
service; any exception raised by the service becomes HTTP 400, and a
returned result dict becomes HTTP 200. -/
def email_to_task (u : User) (existing : Option AIUsageQuota)
    (modelOpt : Option AIModel) (outcome : ApiOutcome) (reqId : Nat)
    (email_content : String) : AiViewResponse :=
  if !u.can_use_ai then
    { http := 402, success := false, providerCalls := 0, body := ""
      error := some "AI usage limit exceeded for your subscription"
      request := none }
  else
    match process_email_to_task u existing modelOpt outcome reqId email_content with
    | .error msg =>
      { http := 400, success := false, providerCalls := 0, body := ""
        error := some msg, request := none }
    | .ok r =>
      { http := 200, success := r.success, providerCalls := r.providerCalls
        body := r.output, error := r.error, request := some r.request }

/-- generate_social_content view, wrapping
generate_filipino_social_content the same way. -/
def generate_social_content (u : User) (existing : Option AIUsageQuota)
    (modelOpt : Option AIModel) (outcome : ApiOutcome) (reqId : Nat)
    (business_update platform : String) : AiViewResponse :=
  if !u.can_use_ai then
    { http := 402, success := false, providerCalls := 0, body := ""
      error := some "AI usage limit exceeded for your subscription"
      request := none }
  else
    match generate_filipino_social_content u existing modelOpt outcome reqId
        business_update platform with
    | .error msg =>
      { http := 400, success := false, providerCalls := 0, body := ""
        error := some msg, request := none }
    | .ok r =>
      { http := 200, success := r.success, providerCalls := r.providerCalls
        body := r.output, error := r.error, request := some r.request }

/-- AITemplate model (ai_services/models.py), fields read by the
custom_ai_request view. -/
structure AITemplate where
  id : Nat
  name : String
  user_prompt_template : String
  is_premium : Bool
  usage_count : Nat
deriving DecidableEq

/-- custom_ai_request view: the generic AI processing is an unimplemented
TODO, so after creating a processing AIRequest row it returns a mock
response without contacting the provider. -/
def custom_ai_request (u : User) (templateOpt : Option AITemplate)
    (reqId : Nat) (input_variables custom_instructions : String) : AiViewResponse :=
  if !u.can_use_ai then
    { http := 402, success := false, providerCalls := 0, body := ""
      error := some "AI usage limit exceeded for your subscription"
      request := none }
  else
    match templateOpt with
    | none =>
      { http := 400, success := false, providerCalls := 0, body := ""
        error := some "AITemplate matching query does not exist."
        request := none }
    | some t =>
      let req := newAIRequest reqId u "custom"
        (input_variables ++ custom_instructions)
      { http := 200, success := true, providerCalls := 0
        body := "Processed using template: " ++ t.name
        error := none
        request := some req }

/-- Mock analysis payload built by the analyze_text view. -/
structure TextAnalysisResult where
  success : Bool
  analysis_type : String
  sentiment : Option String
  summary : Option String
  keywords : List String
  confidence : ℚ
deriving DecidableEq

/-- HTTP-level response of the analyze_text view. -/
structure AnalyzeTextResponse where
  http : Nat
  providerCalls : Nat
  result : Option TextAnalysisResult
deriving DecidableEq

/-- analyze_text view: text analysis is an unimplemented TODO, so it
returns a mock result without contacting the provider. -/
def analyze_text (u : User) (analysis_type text : String) : AnalyzeTextResponse :=
  if !u.can_use_ai then
    { http := 402, providerCalls := 0, result := none }
  else
    { http := 200
      providerCalls := 0
      result := some
        { success := true
          analysis_type := analysis_type
          sentiment := if analysis_type = "sentiment" then some "positive" else none
          summary :=
            if analysis_type = "summary" then
              some ("Summary of: " ++ text.take 50 ++ "...")
            else none
          keywords :=
            if analysis_type = "keywords" then
              ["business", "filipino", "automation"]
            else []
          confidence := 85 / 100 } }

/-- AutomationWorkflow status choices (automations/models.py). -/
inductive WStatus where
  | active
  | paused
  | disabled
deriving DecidableEq

/-- AutomationWorkflow model (automations/models.py). -/
structure AutomationWorkflow where
  id : Nat
  userId : Nat
  name : String
  description : String
  status : WStatus
  trigger_type : String
  trigger_config : String
  ai_instructions : String
  use_ai_processing : Bool
  ai_model_preference : String
  business_hours_only : Bool
  language_context : String
  total_executions : Nat
  successful_executions : Nat
  failed_executions : Nat
  updated_at : Nat
deriving DecidableEq

/-- AutomationWorkflow.success_rate property. -/
def AutomationWorkflow.success_rate (w : AutomationWorkflow) : ℚ :=
  if w.total_executions = 0 then 0
  else pyRound2 (((w.successful_executions : ℚ) / (w.total_executions : ℚ)) * 100)

/-- AutomationWorkflow.is_running property. -/
def AutomationWorkflow.is_running (w : AutomationWorkflow) : Bool :=
  w.status = .active

/-- AutomationAction model (automations/models.py). action_type is Option
because create_workflow_from_template passes action_config.get with no
default. -/
structure AutomationAction where
  id : Nat
  workflowId : Nat
  name : String
  action_type : Option String
  action_config : String
  order : Int
  conditions : String
  is_conditional : Bool
  ai_enhanced : Bool
  ai_prompt_template : String
  retry_on_failure : Bool
  max_retries : Nat
  delay_seconds : Nat
deriving DecidableEq

/-- WorkflowExecution status choices (automations/models.py). -/
inductive ExecStatus where
  | pending
  | running
  | completed
  | failed
  | cancelled
  | timeout
deriving DecidableEq

/-- WorkflowExecution model (automations/models.py). -/
structure WorkflowExecution where
  id : Nat
  workflowId : Nat
  status : ExecStatus
  trigger_data : String
  execution_log : List String
  output_data : String
  error_message : String
  ai_calls_made : Nat
  ai_tokens_used : Nat
  actions_completed : Nat
  actions_failed : Nat
deriving DecidableEq

/-- WorkflowExecution.success_percentage property. -/
def WorkflowExecution.success_percentage (e : WorkflowExecution) : ℚ :=
  if e.actions_completed + e.actions_failed = 0 then 0
  else pyRound2
    (((e.actions_completed : ℚ) / ((e.actions_completed + e.actions_failed : Nat) : ℚ)) * 100)

/-- One entry of workflow_config.actions in an AutomationTemplate; each
field mirrors an action_config.get call in create_workflow_from_template. -/
structure ActionTemplateCfg where
  name : Option String
  action_type : Option String
  action_config : Option String
  order : Option Int
  ai_enhanced : Option Bool
  ai_prompt_template : Option String
deriving DecidableEq

/-- workflow_config of an AutomationTemplate; each field mirrors a
workflow_config.get call in create_workflow_from_template. -/
structure WorkflowTemplateCfg where
  trigger_type : Option String
  trigger_config : Option String
  ai_instructions : Option String
  use_ai_processing : Option Bool
  language_context : Option String
  actions : List ActionTemplateCfg
deriving DecidableEq

/-- AutomationTemplate model (automations/models.py), fields read by
create_workflow_from_template. -/
structure AutomationTemplate where
  id : Nat
  name : String
  workflow_config : WorkflowTemplateCfg
  is_premium : Bool
  usage_count : Nat
deriving DecidableEq

/-- Integration model (integrations/models.py), ownership fields. -/
structure Integration where
  id : Nat
  userId : Nat
  name : String
  is_active : Bool
deriving DecidableEq

/-- IntegrationLog model (integrations/models.py), ownership fields. -/
structure IntegrationLog where
  id : Nat
  integrationId : Nat
deriving DecidableEq

/-- WebhookEndpoint model (integrations/models.py), ownership fields. -/
structure WebhookEndpoint where
  id : Nat
  integrationId : Nat
deriving DecidableEq

/-- Database state: the tables the embedded endpoints touch. -/
structure Db where
  workflows : List AutomationWorkflow
  actions : List AutomationAction
  executions : List WorkflowExecution
  aiRequests : List AIRequest
  integrations : List Integration
  integrationLogs : List IntegrationLog
  webhooks : List WebhookEndpoint
deriving DecidableEq

/-- get_object_or_404(AutomationWorkflow, id=workflow_id, user=request.user). -/
def getOwnedWorkflow (db : Db) (u : User) (wid : Nat) : Option AutomationWorkflow :=
  db.workflows.find? (fun w => w.id == wid && w.userId == u.id)

/-- toggle_workflow_status view (automations/views.py), acting on the
fetched workflow: returns (http status, message, saved workflow). Saving
refreshes the auto_now updated_at column. -/
def toggle_workflow_status (w : AutomationWorkflow) (now : Nat) :
    Nat × String × AutomationWorkflow :=
  if w.status = .active then
    (200, "Workflow paused successfully", { w with status := .paused, updated_at := now })
  else if w.status = .paused then
    (200, "Workflow activated successfully", { w with status := .active, updated_at := now })
  else
    (400, "Cannot toggle disabled workflow", w)

/-- toggle_workflow_status view at the database level. -/
def toggle_workflow_status_view (db : Db) (u : User) (wid now : Nat) : Nat × Db :=
  match getOwnedWorkflow db u wid with
  | none => (404, db)
  | some w =>
    let r := toggle_workflow_status w now
    if r.1 = 400 then (400, db)
    else
      (r.1, { db with workflows :=
        db.workflows.map (fun x => if x.id == w.id then r.2.2 else x) })

/-- The WorkflowExecution row created by execute_workflow_manually:
status pending, every other column at its model default. -/
def freshExecution (eid wid : Nat) (trigger_data : String) : WorkflowExecution :=
  { id := eid
    workflowId := wid
    status := .pending
    trigger_data := trigger_data
    execution_log := []
    output_data := ""
    error_message := ""
    ai_calls_made := 0
    ai_tokens_used := 0
    actions_completed := 0
    actions_failed := 0 }

/-- execute_workflow_manually view (automations/views.py): 404 when the
workflow is not owned, 400 when not active, 402 when AI use is enabled but
the user hit the AI limit, otherwise create a pending execution record and
answer 202; the TODO executor is never invoked. -/
def execute_workflow_manually (db : Db) (u : User) (wid : Nat)
    (trigger_data : String) (eid : Nat) : Nat × Db :=
  match getOwnedWorkflow db u wid with
  | none => (404, db)
  | some w =>
    if w.status ≠ .active then (400, db)
    else if w.use_ai_processing && !u.can_use_ai then (402, db)
    else
      (202, { db with executions := db.executions ++ [freshExecution eid wid trigger_data] })

/-- Writable fields of AutomationWorkflowCreateSerializer. -/
structure WorkflowCreateData where
  name : String
  description : String
  trigger_type : String
  trigger_config : String
  ai_instructions : String
  use_ai_processing : Bool
  ai_model_preference : String
  business_hours_only : Bool
  language_context : String
deriving DecidableEq

/-- AutomationWorkflowListView POST: create a workflow for the requesting
user; status and statistics start at their model defaults. -/
def create_workflow (db : Db) (u : User) (d : WorkflowCreateData)
    (wid now : Nat) : Nat × Db :=
  (201, { db with workflows := db.workflows ++
    [{ id := wid
       userId := u.id
       name := d.name
       description := d.description
       status := .active
       trigger_type := d.trigger_type
       trigger_config := d.trigger_config
       ai_instructions := d.ai_instructions
       use_ai_processing := d.use_ai_processing
       ai_model_preference := d.ai_model_preference
       business_hours_only := d.business_hours_only
       language_context := d.language_context
       total_executions := 0
       successful_executions := 0
       failed_executions := 0
       updated_at := now }] })

/-- Partial update carried by a PATCH/PUT on
AutomationWorkflowDetailView (writable serializer fields only). -/
structure WorkflowPatch where
  name : Option String
  description : Option String
  status : Option WStatus
  trigger_type : Option String
  trigger_config : Option String
  ai_instructions : Option String
  use_ai_processing : Option Bool
  ai_model_preference : Option String
  business_hours_only : Option Bool
  language_context : Option String
deriving DecidableEq

/-- Apply validated serializer data to a workflow instance and save. -/
def applyWorkflowPatch (w : AutomationWorkflow) (p : WorkflowPatch) (now : Nat) :
    AutomationWorkflow :=
  { w with
    name := p.name.getD w.name
    description := p.description.getD w.description
    status := p.status.getD w.status
    trigger_type := p.trigger_type.getD w.trigger_type
    trigger_config := p.trigger_config.getD w.trigger_config
    ai_instructions := p.ai_instructions.getD w.ai_instructions
    use_ai_processing := p.use_ai_processing.getD w.use_ai_processing
    ai_model_preference := p.ai_model_preference.getD w.ai_model_preference
    business_hours_only := p.business_hours_only.getD w.business_hours_only
    language_context := p.language_context.getD w.language_context
    updated_at := now }

/-- AutomationWorkflowDetailView update: the queryset is filtered to the
requesting user, so a foreign or missing id answers 404. -/
def update_workflow (db : Db) (u : User) (wid : Nat) (p : WorkflowPatch)
    (now : Nat) : Nat × Db :=
  match getOwnedWorkflow db u wid with
  | none => (404, db)
  | some w =>
    (200, { db with workflows :=
      db.workflows.map (fun x => if x.id == w.id then applyWorkflowPatch x p now else x) })

/-- AutomationWorkflowDetailView delete, with the CASCADE deletes of the
workflow actions and executions. -/
def delete_workflow (db : Db) (u : User) (wid : Nat) : Nat × Db :=
  match getOwnedWorkflow db u wid with
  | none => (404, db)
  | some w =>
    (204, { db with
      workflows := db.workflows.filter (fun x => !(x.id == w.id))
      actions := db.actions.filter (fun a => !(a.workflowId == w.id))
      executions := db.executions.filter (fun e => !(e.workflowId == w.id)) })

/-- workflow.actions.all(): the related manager queryset, ordered by the
model Meta ordering on the integer order column. -/
def actionsOf (db : Db) (wid : Nat) : List AutomationAction :=
  db.actions.filter (fun a => a.workflowId == wid)

/-- Meta ordering relation of AutomationAction: ascending order column. -/
def actionLE (a b : AutomationAction) : Prop :=
  a.order ≤ b.order

instance : DecidableRel actionLE :=
  fun a b => inferInstanceAs (Decidable (a.order ≤ b.order))

instance : IsTotal AutomationAction actionLE :=
  ⟨fun a b => le_total a.order b.order⟩

instance : IsTrans AutomationAction actionLE :=
  ⟨fun _ _ _ h h2 => le_trans h h2⟩

/-- The ordered action queryset of a workflow. -/
def sortedActionsOf (db : Db) (wid : Nat) : List AutomationAction :=
  List.insertionSort actionLE (actionsOf db wid)

/-- AutomationActionListView GET: 404 unless the workflow is owned by the
requesting user, otherwise the ordered actions of that workflow. -/
def action_list (db : Db) (u : User) (wid : Nat) :
    Nat × Option (List AutomationAction) :=
  match getOwnedWorkflow db u wid with
  | none => (404, none)
  | some w => (200, some (sortedActionsOf db w.id))

/-- Writable fields of AutomationActionSerializer. -/
structure ActionCreateData where
  name : String
  action_type : String
  action_config : String
  order : Int
  conditions : String
  is_conditional : Bool
  ai_enhanced : Bool
  ai_prompt_template : String
  retry_on_failure : Bool
  max_retries : Nat
  delay_seconds : Nat
deriving DecidableEq

/-- AutomationActionListView POST: serializer.save(workflow=workflow) for
the owned workflow. -/
def create_action (db : Db) (u : User) (wid : Nat) (d : ActionCreateData)
    (aid : Nat) : Nat × Db :=
  match getOwnedWorkflow db u wid with
  | none => (404, db)
  | some w =>
    (201, { db with actions := db.actions ++
      [{ id := aid
         workflowId := w.id
         name := d.name
         action_type := some d.action_type
         action_config := d.action_config
         order := d.order
         conditions := d.conditions
         is_conditional := d.is_conditional
         ai_enhanced := d.ai_enhanced
         ai_prompt_template := d.ai_prompt_template
         retry_on_failure := d.retry_on_failure
         max_retries := d.max_retries
         delay_seconds := d.delay_seconds }] })

/-- AutomationActionDetailView delete: look the action up inside the owned
workflow queryset, 404 otherwise. -/
def delete_action (db : Db) (u : User) (wid aid : Nat) : Nat × Db :=
  match getOwnedWorkflow db u wid with
  | none => (404, db)
  | some w =>
    match (actionsOf db w.id).find? (fun a => a.id == aid) with
    | none => (404, db)
    | some a => (204, { db with actions := db.actions.filter (fun x => !(x.id == a.id)) })

/-- One action created by the for loop of create_workflow_from_template,
using the documented default for every missing key. -/
def actionFromCfg (wid aid : Nat) (c : ActionTemplateCfg) : AutomationAction :=
  { id := aid
    workflowId := wid
    name := c.name.getD ""
    action_type := c.action_type
    action_config := c.action_config.getD ""
    order := c.order.getD 0
    conditions := ""
    is_conditional := false
    ai_enhanced := c.ai_enhanced.getD false
    ai_prompt_template := c.ai_prompt_template.getD ""
    retry_on_failure := true
    max_retries := 3
    delay_seconds := 0 }

/-- The for loop of create_workflow_from_template over
workflow_config.actions, with consecutively assigned primary keys. -/
def actionsFromTemplate (wid aid0 : Nat) : List ActionTemplateCfg → List AutomationAction
  | [] => []
  | c :: cs => actionFromCfg wid aid0 c :: actionsFromTemplate wid (aid0 + 1) cs

/-- create_workflow_from_template view: serializer validation rejects
premium templates for starter users, otherwise a workflow plus its actions
are created from workflow_config. -/
def create_workflow_from_template (db : Db) (u : User) (t : AutomationTemplate)
    (workflow_name : String) (wid aid0 now : Nat) : Nat × Db :=
  if t.is_premium && u.subscription_tier == .starter then (400, db)
  else
    let cfg := t.workflow_config
    (201, { db with
      workflows := db.workflows ++
        [{ id := wid
           userId := u.id
           name := workflow_name
           description := "Created from template: " ++ t.name
           status := .active
           trigger_type := cfg.trigger_type.getD "manual"
           trigger_config := cfg.trigger_config.getD ""
           ai_instructions := cfg.ai_instructions.getD ""
           use_ai_processing := cfg.use_ai_processing.getD true
           ai_model_preference := "auto"
           business_hours_only := true
           language_context := cfg.language_context.getD "mixed"
           total_executions := 0
           successful_executions := 0
           failed_executions := 0
           updated_at := now }]
      actions := db.actions ++ actionsFromTemplate wid aid0 cfg.actions })

/-- Every state-changing request of the automations app. -/
inductive AutomationOp where
  | createWf (u : User) (d : WorkflowCreateData) (wid now : Nat)
  | updateWf (u : User) (wid : Nat) (p : WorkflowPatch) (now : Nat)
  | deleteWf (u : User) (wid : Nat)
  | toggleWf (u : User) (wid now : Nat)
  | executeWf (u : User) (wid : Nat) (trigger_data : String) (eid : Nat)
  | createAct (u : User) (wid : Nat) (d : ActionCreateData) (aid : Nat)
  | deleteAct (u : User) (wid aid : Nat)
  | fromTemplate (u : User) (t : AutomationTemplate) (workflow_name : String)
      (wid aid0 now : Nat)

/-- State transition of one automations request. -/
def stepOp (db : Db) : AutomationOp → Db
  | .createWf u d wid now => (create_workflow db u d wid now).2
  | .updateWf u wid p now => (update_workflow db u wid p now).2
  | .deleteWf u wid => (delete_workflow db u wid).2
  | .toggleWf u wid now => (toggle_workflow_status_view db u wid now).2
  | .executeWf u wid trig eid => (execute_workflow_manually db u wid trig eid).2
  | .createAct u wid d aid => (create_action db u wid d aid).2
  | .deleteAct u wid aid => (delete_action db u wid aid).2
  | .fromTemplate u t wname wid aid0 now =>
      (create_workflow_from_template db u t wname wid aid0 now).2

/-- Replace the error-handling columns of every stored action; used to
state that no code path reads them. -/
def setRetryFields (b : Bool) (n : Nat) (db : Db) : Db :=
  { db with actions :=
      db.actions.map (fun a => { a with retry_on_failure := b, max_retries := n }) }

/-- An execution record exactly as execute_workflow_manually creates it:
pending and never worked on. -/
def untouchedExec (e : WorkflowExecution) : Prop :=
  e.status = .pending ∧ e.actions_completed = 0 ∧ e.actions_failed = 0 ∧
    e.ai_calls_made = 0 ∧ e.execution_log = []

/-- List endpoint querysets (C8): direct ownership filters. -/
def workflowsQS (db : Db) (uid : Nat) : List AutomationWorkflow :=
  db.workflows.filter (fun w => w.userId == uid)

/-- AIRequestListView queryset. -/
def aiRequestsQS (db : Db) (uid : Nat) : List AIRequest :=
  db.aiRequests.filter (fun r => r.userId == uid)

/-- IntegrationListView queryset. -/
def integrationsQS (db : Db) (uid : Nat) : List Integration :=
  db.integrations.filter (fun i => i.userId == uid)

/-- The user that owns a workflow row (workflow__user join). -/
def workflowOwner (db : Db) (wid : Nat) : Option Nat :=
  (db.workflows.find? (fun w => w.id == wid)).map (fun w => w.userId)

/-- The user that owns an integration row (integration__user join). -/
def integrationOwner (db : Db) (iid : Nat) : Option Nat :=
  (db.integrations.find? (fun i => i.id == iid)).map (fun i => i.userId)

/-- WorkflowExecutionListView queryset: filter(workflow__user=user). -/
def executionsQS (db : Db) (uid : Nat) : List WorkflowExecution :=
  db.executions.filter (fun e => workflowOwner db e.workflowId == some uid)

/-- IntegrationLogListView queryset: filter(integration__user=user). -/
def integrationLogsQS (db : Db) (uid : Nat) : List IntegrationLog :=
  db.integrationLogs.filter (fun l => integrationOwner db l.integrationId == some uid)

/-- WebhookEndpointListView queryset: filter(integration__user=user). -/
def webhooksQS (db : Db) (uid : Nat) : List WebhookEndpoint :=
  db.webhooks.filter (fun h => integrationOwner db h.integrationId == some uid)

/-! Concrete rows used to evaluate the theorems on closed inputs. -/

/-- A starter-tier user with no AI calls this month. -/
def u1 : User :=
  { id := 1, subscription_tier := .starter, monthly_ai_calls := 0
    company_name := "Sari-Sari Works" }

/-- A second, distinct user. -/
def u2 : User :=
  { id := 2, subscription_tier := .starter, monthly_ai_calls := 0
    company_name := "Island Trade" }

/-- A quota row with exactly one request remaining. -/
def q6 : AIUsageQuota :=
  { user := 1, period_type := "monthly", max_requests := 1, max_tokens := 1000
    max_cost_usd := 10, current_requests := 0, current_tokens := 0
    current_cost_usd := 0, is_exceeded := false }

/-- A quota row whose limits are all zero. -/
def qZero : AIUsageQuota :=
  { user := 1, period_type := "monthly", max_requests := 0, max_tokens := 0
    max_cost_usd := 0, current_requests := 3, current_tokens := 7
    current_cost_usd := 2, is_exceeded := true }

/-- A priced model row. -/
def modelA : AIModel :=
  { provider :=
      { name := "OpenRouter"
        cost_per_input_token := 1 / 1000000
        cost_per_output_token := 2 / 1000000 }
    model_id := "deepseek/deepseek-r1" }

/-- An active workflow owned by u1. -/
def wfActive : AutomationWorkflow :=
  { id := 10, userId := 1, name := "Lead intake", description := ""
    status := .active, trigger_type := "manual", trigger_config := ""
    ai_instructions := "", use_ai_processing := true
    ai_model_preference := "auto", business_hours_only := true
    language_context := "mixed", total_executions := 0
    successful_executions := 0, failed_executions := 0, updated_at := 0 }

/-- A workflow owned by u2. -/
def wfOther : AutomationWorkflow :=
  { wfActive with id := 20, userId := 2 }

/-- Two actions of wfActive listed out of order. -/
def actA : AutomationAction :=
  { id := 1, workflowId := 10, name := "second", action_type := some "send_email"
    action_config := "", order := 2, conditions := "", is_conditional := false
    ai_enhanced := false, ai_prompt_template := "", retry_on_failure := true
    max_retries := 3, delay_seconds := 0 }

/-- The action that should be listed first. -/
def actB : AutomationAction :=
  { actA with id := 2, name := "first", order := 1 }

/-- A database holding only wfActive. -/
def db0 : Db :=
  { workflows := [wfActive], actions := [], executions := [], aiRequests := []
    integrations := [], integrationLogs := [], webhooks := [] }

/-- db0 with the two unordered actions. -/
def db7 : Db :=
  { db0 with actions := [actA, actB] }

/-- A database holding only the workflow of u2. -/
def db8 : Db :=
  { db0 with workflows := [wfOther] }

/-- A starter user who exhausted the monthly AI allowance. -/
def uOver : User :=
  { id := 3, subscription_tier := .starter, monthly_ai_calls := 1000
    company_name := "Busy Corner" }

/-- The active AI-processing workflow of uOver. -/
def wfOverAI : AutomationWorkflow :=
  { wfActive with userId := 3 }

/-- A database holding only wfOverAI. -/
def dbOver : Db :=
  { db0 with workflows := [wfOverAI] }

/-- A PATCH payload that changes nothing. -/
def emptyPatch : WorkflowPatch :=
  { name := none, description := none, status := none, trigger_type := none
    trigger_config := none, ai_instructions := none, use_ai_processing := none
    ai_model_preference := none, business_hours_only := none
    language_context := none }

/-- A non-premium AI template row. -/
def tmplAI : AITemplate :=
  { id := 1, name := "Follow up", user_prompt_template := "t"
    is_premium := false, usage_count := 0 }

/-- Fallback ProcessResult used only to project a successful Except value. -/
def dummyResult : ProcessResult :=
  { success := false, request := newAIRequest 0 u1 "" "", user := u1
    quota := q6, providerCalls := 0, output := "", error := none }

/-- Project the payload out of a successful service result. -/
def resultOrDefault (x : Except String ProcessResult) : ProcessResult :=
  match x with
  | .ok r => r
  | .error _ => dummyResult

/-- The concrete result of one successful email_to_task service call. -/
def r4 : ProcessResult :=
  resultOrDefault
    (process_email_to_task u1 (some q6) (some modelA)
      (ApiOutcome.ok 10 5 15 100 "task-json") 7 "please pay the invoice")

/-! Helper lemmas about the service layer. -/

lemma process_email_exn_eq (u : User) (existing : Option AIUsageQuota)
    (m : AIModel) (msg : String) (reqId : Nat) (email : String)
    (hq : (check_usage_quota u existing).can_use = true) :
    process_email_to_task u existing (some m) (ApiOutcome.exn msg) reqId email =
      Except.ok
        { success := false
          request := { newAIRequest reqId u "email_to_task" email with
            status := .failed, error_message := msg }
          user := u
          quota := (check_usage_quota u existing).quota
          providerCalls := 1
          output := ""
          error := some msg } := by
  simp [process_email_to_task, hq]

lemma process_email_ok_eq (u : User) (existing : Option AIUsageQuota)
    (m : AIModel) (pt ct tt rt : Nat) (content : String) (reqId : Nat)
    (email : String)
    (hq : (check_usage_quota u existing).can_use = true) :
    process_email_to_task u existing (some m) (ApiOutcome.ok pt ct tt rt content)
        reqId email =
      Except.ok
        { success := true
          request := { newAIRequest reqId u "email_to_task" email with
            status := .completed
            output_data := content
            input_tokens := pt
            output_tokens := ct
            total_tokens := tt
            response_time_ms := some rt
            cost_usd := calculate_cost m pt ct
            cost_php := calculate_cost m pt ct * 56 }
          user := { u with monthly_ai_calls := u.monthly_ai_calls + 1 }
          quota := (check_usage_quota u existing).quota.update_usage 1 tt
            (calculate_cost m pt ct)
          providerCalls := 1
          output := content
          error := none } := by
  simp [process_email_to_task, hq]

lemma process_email_ok_inv {u : User} {existing : Option AIUsageQuota}
    {mo : Option AIModel} {outcome : ApiOutcome} {reqId : Nat} {email : String}
    {r : ProcessResult}
    (h : process_email_to_task u existing mo outcome reqId email = Except.ok r) :
    (check_usage_quota u existing).can_use = true ∧ ∃ m, mo = some m := by
  by_cases hq : (check_usage_quota u existing).can_use = true
  · refine ⟨hq, ?_⟩
    cases mo with
    | none => simp [process_email_to_task, hq] at h
    | some m => exact ⟨m, rfl⟩
  · have hq2 : (check_usage_quota u existing).can_use = false := by
      simpa using hq
    simp [process_email_to_task, hq2] at h

lemma social_exn_eq (u : User) (existing : Option AIUsageQuota)
    (m : AIModel) (msg : String) (reqId : Nat) (bu pf : String)
    (hq : (check_usage_quota u existing).can_use = true) :
    generate_filipino_social_content u existing (some m) (ApiOutcome.exn msg)
        reqId bu pf =
      Except.ok
        { success := false
          request := { newAIRequest reqId u "content_generation" (bu ++ pf) with
            status := .failed, error_message := msg }
          user := u
          quota := (check_usage_quota u existing).quota
          providerCalls := 1
          output := ""
          error := some msg } := by
  simp [generate_filipino_social_content, hq]

lemma social_ok_eq (u : User) (existing : Option AIUsageQuota)
    (m : AIModel) (pt ct tt rt : Nat) (content : String) (reqId : Nat)
    (bu pf : String)
    (hq : (check_usage_quota u existing).can_use = true) :
    generate_filipino_social_content u existing (some m)
        (ApiOutcome.ok pt ct tt rt content) reqId bu pf =
      Except.ok
        { success := true
          request := { newAIRequest reqId u "content_generation" (bu ++ pf) with
            status := .completed
            output_data := content
            input_tokens := pt
            output_tokens := ct
            total_tokens := tt
            response_time_ms := some rt
            cost_usd := calculate_cost m pt ct
            cost_php := calculate_cost m pt ct * 56 }
          user := { u with monthly_ai_calls := u.monthly_ai_calls + 1 }
          quota := (check_usage_quota u existing).quota.update_usage 1 tt
            (calculate_cost m pt ct)
          providerCalls := 1
          output := content
          error := none } := by
  simp [generate_filipino_social_content, hq]

lemma social_ok_inv {u : User} {existing : Option AIUsageQuota}
    {mo : Option AIModel} {outcome : ApiOutcome} {reqId : Nat} {bu pf : String}
    {r : ProcessResult}
    (h : generate_filipino_social_content u existing mo outcome reqId bu pf =
      Except.ok r) :
    (check_usage_quota u existing).can_use = true ∧ ∃ m, mo = some m := by
  by_cases hq : (check_usage_quota u existing).can_use = true
  · refine ⟨hq, ?_⟩
    cases mo with
    | none => simp [generate_filipino_social_content, hq] at h
    | some m => exact ⟨m, rfl⟩
  · have hq2 : (check_usage_quota u existing).can_use = false := by
      simpa using hq
    simp [generate_filipino_social_content, hq2] at h

/-! Helper lemmas about the automations transition system. -/

lemma fresh_untouched (eid wid : Nat) (trig : String) :
    untouchedExec (freshExecution eid wid trig) :=
  ⟨rfl, rfl, rfl, rfl, rfl⟩

lemma update_workflow_executions (db : Db) (u : User) (wid : Nat)
    (p : WorkflowPatch) (now : Nat) :
    (update_workflow db u wid p now).2.executions = db.executions := by
  cases hw : getOwnedWorkflow db u wid <;> simp [update_workflow, hw]

lemma toggle_view_executions (db : Db) (u : User) (wid now : Nat) :
    (toggle_workflow_status_view db u wid now).2.executions = db.executions := by
  cases hw : getOwnedWorkflow db u wid
  · simp [toggle_workflow_status_view, hw]
  · simp only [toggle_workflow_status_view, hw]
    split <;> rfl

lemma create_action_executions (db : Db) (u : User) (wid : Nat)
    (d : ActionCreateData) (aid : Nat) :
    (create_action db u wid d aid).2.executions = db.executions := by
  cases hw : getOwnedWorkflow db u wid <;> simp [create_action, hw]

lemma delete_action_executions (db : Db) (u : User) (wid aid : Nat) :
    (delete_action db u wid aid).2.executions = db.executions := by
  cases hw : getOwnedWorkflow db u wid
  · simp [delete_action, hw]
  · rename_i w
    cases ha : (actionsOf db w.id).find? (fun a => a.id == aid) <;>
      simp [delete_action, hw, ha]

lemma from_template_executions (db : Db) (u : User) (t : AutomationTemplate)
    (wname : String) (wid aid0 now : Nat) :
    (create_workflow_from_template db u t wname wid aid0 now).2.executions =
      db.executions := by
  unfold create_workflow_from_template
  split <;> rfl

lemma execute_manual_executions (db : Db) (u : User) (wid : Nat)
    (trig : String) (eid : Nat) :
    (execute_workflow_manually db u wid trig eid).2.executions = db.executions ∨
    (execute_workflow_manually db u wid trig eid).2.executions =
      db.executions ++ [freshExecution eid wid trig] := by
  cases hw : getOwnedWorkflow db u wid
  · left
    simp [execute_workflow_manually, hw]
  · rename_i w
    by_cases h1 : w.status = WStatus.active
    · by_cases h2 : (w.use_ai_processing && !u.can_use_ai) = true
      · left
        simp [execute_workflow_manually, hw, h1, h2]
      · right
        have h2f : (w.use_ai_processing && !u.can_use_ai) = false := by
          simpa using h2
        simp [execute_workflow_manually, hw, h1, h2f]
    · left
      simp [execute_workflow_manually, hw, h1]

lemma stepOp_exec_mem (db : Db) (op : AutomationOp) (e : WorkflowExecution)
    (h : e ∈ (stepOp db op).executions) : e ∈ db.executions ∨ untouchedExec e := by
  cases op with
  | createWf u d wid now =>
    left
    simpa [stepOp, create_workflow] using h
  | updateWf u wid p now =>
    left
    rw [stepOp, update_workflow_executions] at h
    exact h
  | deleteWf u wid =>
    left
    cases hw : getOwnedWorkflow db u wid <;> simp [stepOp, delete_workflow, hw] at h
    · exact h
    · exact h.1
  | toggleWf u wid now =>
    left
    rw [stepOp, toggle_view_executions] at h
    exact h
  | executeWf u wid trig eid =>
    rcases execute_manual_executions db u wid trig eid with h2 | h2 <;>
      rw [stepOp, h2] at h
    · exact Or.inl h
    · rcases List.mem_append.mp h with h3 | h3
      · exact Or.inl h3
      · have : e = freshExecution eid wid trig := by simpa using h3
        exact Or.inr (this ▸ fresh_untouched eid wid trig)
  | createAct u wid d aid =>
    left
    rw [stepOp, create_action_executions] at h
    exact h
  | deleteAct u wid aid =>
    left
    rw [stepOp, delete_action_executions] at h
    exact h
  | fromTemplate u t wname wid aid0 now =>
    left
    rw [stepOp, from_template_executions] at h
    exact h

lemma foldl_untouched (ops : List AutomationOp) :
    ∀ db : Db, (∀ e ∈ db.executions, untouchedExec e) →
      ∀ e ∈ (List.foldl stepOp db ops).executions, untouchedExec e := by
  induction ops with
  | nil =>
    intro db hdb e he
    exact hdb e he
  | cons op ops ih =>
    intro db hdb e he
    refine ih (stepOp db op) ?_ e he
    intro e2 he2
    rcases stepOp_exec_mem db op e2 he2 with h1 | h2
    · exact hdb e2 h1
    · exact h2

/-! Claim theorems. -/

/-- Claim C1 counterexample: the claim promises a pending execution and
HTTP 202 for every manual execution request on an active workflow, but an
active AI-processing workflow whose owner exhausted the AI allowance gets
HTTP 402 and no execution record. -/
theorem C1_counterexample :
    wfOverAI.status = WStatus.active ∧
    wfOverAI.use_ai_processing = true ∧
    execute_workflow_manually dbOver uOver 10 "t" 99 = (402, dbOver) ∧
    (execute_workflow_manually dbOver uOver 10 "t" 99).2.executions = [] := by
  decide

/-- Claim C1 (amended): a manual execution request on an owned, active
workflow that passes the AI-limit gate (the workflow does not use AI
processing, or the user is under the AI limit) creates a WorkflowExecution
with status pending and answers HTTP 202, a request failing that gate
answers HTTP 402 creating nothing, and no state-changing request of the
automations app ever transitions an execution out of pending or records
any action work on it: every execution in any reachable state is the
untouched pending record that execute_workflow_manually created. -/
theorem C1_manual_execution_stays_pending :
    (∀ (db : Db) (u : User) (wid : Nat) (trig : String) (eid : Nat)
        (w : AutomationWorkflow),
      getOwnedWorkflow db u wid = some w →
      w.status = WStatus.active →
      (w.use_ai_processing = false ∨ u.can_use_ai = true) →
      execute_workflow_manually db u wid trig eid =
        (202, { db with executions := db.executions ++ [freshExecution eid wid trig] })) ∧
    (∀ (db : Db) (u : User) (wid : Nat) (trig : String) (eid : Nat)
        (w : AutomationWorkflow),
      getOwnedWorkflow db u wid = some w →
      w.status = WStatus.active →
      w.use_ai_processing = true →
      u.can_use_ai = false →
      execute_workflow_manually db u wid trig eid = (402, db)) ∧
    (∀ (db : Db) (op : AutomationOp) (e : WorkflowExecution),
      e ∈ (stepOp db op).executions → e ∈ db.executions ∨ untouchedExec e) ∧
    (∀ (ops : List AutomationOp) (db : Db),
      (∀ e ∈ db.executions, untouchedExec e) →
      ∀ e ∈ (List.foldl stepOp db ops).executions, untouchedExec e) := by
  refine ⟨?_, ?_, stepOp_exec_mem, fun ops db => foldl_untouched ops db⟩
  · intro db u wid trig eid w hw hs hai
    rcases hai with h | h
    · simp [execute_workflow_manually, hw, hs, h]
    · simp [execute_workflow_manually, hw, hs, h]
  · intro db u wid trig eid w hw hs hai hlim
    simp [execute_workflow_manually, hw, hs, hai, hlim]

/-- Witness for C1 on a one-workflow database. -/
theorem C1_manual_execution_stays_pending_witness :
    execute_workflow_manually db0 u1 10 "t" 99 =
      (202, { db0 with executions := db0.executions ++ [freshExecution 99 10 "t"] }) :=
  C1_manual_execution_stays_pending.1 db0 u1 10 "t" 99 wfActive (by decide)
    (by decide) (Or.inr (by decide))

/-- Claim C3: exceptions within AI request processing are caught
generically: the service marks the AIRequest failed with the error
message and returns success=false instead of re-raising, the REST
endpoint turns remaining exceptions into HTTP 400, and no code path
retries: every AIRequest the service layer produces has retry_count 0,
and the retry_on_failure / max_retries action fields never influence the
execution endpoint. -/
theorem C3_generic_errors_no_retry :
    (∀ (u : User) (ex : Option AIUsageQuota) (m : AIModel) (msg : String)
        (reqId : Nat) (email : String),
      (check_usage_quota u ex).can_use = true →
      ∃ r, process_email_to_task u ex (some m) (ApiOutcome.exn msg) reqId email =
          Except.ok r ∧
        r.success = false ∧ r.request.status = ReqStatus.failed ∧
        r.request.error_message = msg ∧ r.request.retry_count = 0 ∧
        r.error = some msg) ∧
    (∀ (u : User) (ex : Option AIUsageQuota) (m : AIModel) (msg : String)
        (reqId : Nat) (bu pf : String),
      (check_usage_quota u ex).can_use = true →
      ∃ r, generate_filipino_social_content u ex (some m) (ApiOutcome.exn msg)
          reqId bu pf = Except.ok r ∧
        r.success = false ∧ r.request.status = ReqStatus.failed ∧
        r.request.error_message = msg ∧ r.request.retry_count = 0 ∧
        r.error = some msg) ∧
    (∀ (u : User) (ex : Option AIUsageQuota) (mo : Option AIModel)
        (outcome : ApiOutcome) (reqId : Nat) (email msg : String),
      u.can_use_ai = true →
      process_email_to_task u ex mo outcome reqId email = Except.error msg →
      email_to_task u ex mo outcome reqId email =
        { http := 400, success := false, providerCalls := 0, body := ""
          error := some msg, request := none }) ∧
    (∀ (u : User) (ex : Option AIUsageQuota) (mo : Option AIModel)
        (outcome : ApiOutcome) (reqId : Nat) (email : String) (r : ProcessResult),
      process_email_to_task u ex mo outcome reqId email = Except.ok r →
      r.request.retry_count = 0) ∧
    (∀ (u : User) (ex : Option AIUsageQuota) (mo : Option AIModel)
        (outcome : ApiOutcome) (reqId : Nat) (bu pf : String) (r : ProcessResult),
      generate_filipino_social_content u ex mo outcome reqId bu pf = Except.ok r →
      r.request.retry_count = 0) ∧
    (∀ (u : User) (tm : Option AITemplate) (reqId : Nat) (v i : String)
        (req : AIRequest),
      (custom_ai_request u tm reqId v i).request = some req →
      req.retry_count = 0) ∧
    (∀ (db : Db) (u : User) (wid : Nat) (trig : String) (eid : Nat)
        (b : Bool) (n : Nat),
      (execute_workflow_manually (setRetryFields b n db) u wid trig eid).1 =
        (execute_workflow_manually db u wid trig eid).1 ∧
      (execute_workflow_manually (setRetryFields b n db) u wid trig eid).2.executions =
        (execute_workflow_manually db u wid trig eid).2.executions) := by
  refine ⟨?_, ?_, ?_, ?_, ?_, ?_, ?_⟩
  · intro u ex m msg reqId email hq
    exact ⟨_, process_email_exn_eq u ex m msg reqId email hq,
      rfl, rfl, rfl, rfl, rfl⟩
  · intro u ex m msg reqId bu pf hq
    exact ⟨_, social_exn_eq u ex m msg reqId bu pf hq, rfl, rfl, rfl, rfl, rfl⟩
  · intro u ex mo outcome reqId email msg hu hp
    simp [email_to_task, hu, hp]
  · intro u ex mo outcome reqId email r h
    obtain ⟨hq, m, hm⟩ := process_email_ok_inv h
    subst hm
    cases outcome with
    | exn msg =>
      rw [process_email_exn_eq u ex m msg reqId email hq] at h
      injection h with h2
      subst h2
      rfl
    | ok pt ct tt rt content =>
      rw [process_email_ok_eq u ex m pt ct tt rt content reqId email hq] at h
      injection h with h2
      subst h2
      rfl
  · intro u ex mo outcome reqId bu pf r h
    obtain ⟨hq, m, hm⟩ := social_ok_inv h
    subst hm
    cases outcome with
    | exn msg =>
      rw [social_exn_eq u ex m msg reqId bu pf hq] at h
      injection h with h2
      subst h2
      rfl
    | ok pt ct tt rt content =>
      rw [social_ok_eq u ex m pt ct tt rt content reqId bu pf hq] at h
      injection h with h2
      subst h2
      rfl
  · intro u tm reqId v i req h
    by_cases hu : u.can_use_ai = true
    · cases tm with
      | none => simp [custom_ai_request, hu] at h
      | some t =>
        simp [custom_ai_request, hu] at h
        subst h
        rfl
    · have hu2 : u.can_use_ai = false := by simpa using hu
      simp [custom_ai_request, hu2] at h
  · intro db u wid trig eid b n
    have hg : getOwnedWorkflow (setRetryFields b n db) u wid =
        getOwnedWorkflow db u wid := rfl
    constructor
    · unfold execute_workflow_manually
      rw [hg]
      cases getOwnedWorkflow db u wid with
      | none => rfl
      | some w => dsimp only; split_ifs <;> rfl
    · unfold execute_workflow_manually
      rw [hg]
      cases getOwnedWorkflow db u wid with
      | none => rfl
      | some w => dsimp only; split_ifs <;> rfl

/-- Witness for C3: with no AIModel row the service raises and the
endpoint answers HTTP 400 with the error text. -/
theorem C3_generic_errors_no_retry_witness :
    email_to_task u1 none none (ApiOutcome.exn "boom") 5 "pay the invoice" =
      { http := 400, success := false, providerCalls := 0, body := ""
        error := some "No AI model available for your subscription"
        request := none } :=
  C3_generic_errors_no_retry.2.2.1 u1 none none (ApiOutcome.exn "boom") 5
    "pay the invoice" "No AI model available for your subscription"
    (by decide) (by rfl)

/-- Claim C4: a successful completion of either core AI service call
bumps the user's monthly_ai_calls by exactly 1, the quota's
current_requests by 1, current_tokens by the response total token count
and current_cost_usd by input tokens times cost_per_input_token plus
output tokens times cost_per_output_token, leaves the quota maxima
unchanged, and stores the same token and cost values on the completed
AIRequest. -/
theorem C4_success_usage_accounting :
    (∀ (u : User) (ex : Option AIUsageQuota) (m : AIModel) (pt ct tt rt : Nat)
        (content : String) (reqId : Nat) (email : String) (r : ProcessResult),
      process_email_to_task u ex (some m) (ApiOutcome.ok pt ct tt rt content)
          reqId email = Except.ok r →
      (r.user = { u with monthly_ai_calls := u.monthly_ai_calls + 1 } ∧
       r.quota.current_requests = (check_usage_quota u ex).quota.current_requests + 1 ∧
       r.quota.current_tokens = (check_usage_quota u ex).quota.current_tokens + tt ∧
       r.quota.current_cost_usd = (check_usage_quota u ex).quota.current_cost_usd +
         (m.provider.cost_per_input_token * pt + m.provider.cost_per_output_token * ct) ∧
       r.quota.max_requests = (check_usage_quota u ex).quota.max_requests ∧
       r.quota.max_tokens = (check_usage_quota u ex).quota.max_tokens ∧
       r.quota.max_cost_usd = (check_usage_quota u ex).quota.max_cost_usd ∧
       r.request.status = ReqStatus.completed ∧
       r.request.input_tokens = pt ∧ r.request.output_tokens = ct ∧
       r.request.total_tokens = tt ∧
       r.request.cost_usd =
         m.provider.cost_per_input_token * pt + m.provider.cost_per_output_token * ct)) ∧
    (∀ (u : User) (ex : Option AIUsageQuota) (m : AIModel) (pt ct tt rt : Nat)
        (content : String) (reqId : Nat) (bu pf : String) (r : ProcessResult),
      generate_filipino_social_content u ex (some m)
          (ApiOutcome.ok pt ct tt rt content) reqId bu pf = Except.ok r →
      (r.user = { u with monthly_ai_calls := u.monthly_ai_calls + 1 } ∧
       r.quota.current_requests = (check_usage_quota u ex).quota.current_requests + 1 ∧
       r.quota.current_tokens = (check_usage_quota u ex).quota.current_tokens + tt ∧
       r.quota.current_cost_usd = (check_usage_quota u ex).quota.current_cost_usd +
         (m.provider.cost_per_input_token * pt + m.provider.cost_per_output_token * ct) ∧
       r.quota.max_requests = (check_usage_quota u ex).quota.max_requests ∧
       r.quota.max_tokens = (check_usage_quota u ex).quota.max_tokens ∧
       r.quota.max_cost_usd = (check_usage_quota u ex).quota.max_cost_usd ∧
       r.request.status = ReqStatus.completed ∧
       r.request.input_tokens = pt ∧ r.request.output_tokens = ct ∧
       r.request.total_tokens = tt ∧
       r.request.cost_usd =
         m.provider.cost_per_input_token * pt + m.provider.cost_per_output_token * ct)) := by
  constructor
  · intro u ex m pt ct tt rt content reqId email r h
    have hq := (process_email_ok_inv h).1
    rw [process_email_ok_eq u ex m pt ct tt rt content reqId email hq] at h
    injection h with h2
    subst h2
    exact ⟨rfl, rfl, rfl, rfl, rfl, rfl, rfl, rfl, rfl, rfl, rfl, rfl⟩
  · intro u ex m pt ct tt rt content reqId bu pf r h
    have hq := (social_ok_inv h).1
    rw [social_ok_eq u ex m pt ct tt rt content reqId bu pf hq] at h
    injection h with h2
    subst h2
    exact ⟨rfl, rfl, rfl, rfl, rfl, rfl, rfl, rfl, rfl, rfl, rfl, rfl⟩

/-- Witness for C4 on a concrete successful call. -/
theorem C4_success_usage_accounting_witness :
    r4.user = { u1 with monthly_ai_calls := u1.monthly_ai_calls + 1 } ∧
    r4.request.status = ReqStatus.completed :=
  have h := C4_success_usage_accounting.1 u1 (some q6) modelA 10 5 15 100
    "task-json" 7 "please pay the invoice" r4 (by rfl)
  ⟨h.1, h.2.2.2.2.2.2.2.1⟩

/-- Claim C2: AIUsageQuota.update_usage adds the given non-negative
increments to the three usage counters and then sets is_exceeded exactly
when a counter reached its maximum, while check_usage_quota computes
can_use from a plain prior read of the quota row (which it returns
unmodified), with no coupling to the later update. -/
theorem C2_quota_update_and_check :
    ∀ (q : AIUsageQuota) (r t : Nat) (c : ℚ), 0 ≤ c →
      ((q.update_usage r t c).current_requests = q.current_requests + r ∧
       (q.update_usage r t c).current_tokens = q.current_tokens + t ∧
       (q.update_usage r t c).current_cost_usd = q.current_cost_usd + c ∧
       ((q.update_usage r t c).is_exceeded = true ↔
         ((q.update_usage r t c).max_requests ≤ (q.update_usage r t c).current_requests ∨
          (q.update_usage r t c).max_tokens ≤ (q.update_usage r t c).current_tokens ∨
          (q.update_usage r t c).max_cost_usd ≤ (q.update_usage r t c).current_cost_usd))) ∧
      (∀ (u : User) (q0 : AIUsageQuota),
        (check_usage_quota u (some q0)).quota = q0 ∧
        ((check_usage_quota u (some q0)).can_use = true ↔
          (q0.is_exceeded = false ∧ q0.current_requests < q0.max_requests))) := by
  intro q r t c _
  refine ⟨⟨rfl, rfl, rfl, ?_⟩, ?_⟩
  · simp [AIUsageQuota.update_usage, or_assoc]
  · intro u q0
    refine ⟨rfl, ?_⟩
    simp [check_usage_quota]

/-- Witness for C2 at a concrete quota row. -/
theorem C2_quota_update_and_check_witness :
    (0 : ℚ) ≤ 1 ∧ (q6.update_usage 1 2 1).current_requests = q6.current_requests + 1 :=
  ⟨by norm_num, ((C2_quota_update_and_check q6 1 2 1 (by norm_num)).1).1⟩

/-- Claim C6: the admission check and the usage update are separate
unsynchronized steps on the shared quota row. Starting from one remaining
request, both of two interleaved invocations observe can_use (the same
read happens before either write), yet after both updates the counter
stands at 2 against a maximum of 1; a serialized second check would have
been denied. -/
theorem C6_concurrent_double_admission :
    (check_usage_quota u1 (some q6)).can_use = true ∧
    (check_usage_quota u1 (some (q6.update_usage 1 50 (1 / 100)))).can_use = false ∧
    ((q6.update_usage 1 50 (1 / 100)).update_usage 1 50 (1 / 100)).current_requests = 2 ∧
    q6.max_requests = 1 := by
  decide

/-- Claim C5 counterexample: the claim states that every AI request type
exposed at the public API is forwarded to the external provider before a
result is returned, but the analyze_text and custom_ai_request endpoints
return successful results at a concrete input with zero provider calls. -/
theorem C5_counterexample :
    (analyze_text u1 "sentiment" "hello").http = 200 ∧
    (analyze_text u1 "sentiment" "hello").result.isSome = true ∧
    (analyze_text u1 "sentiment" "hello").providerCalls = 0 ∧
    (custom_ai_request u1 (some tmplAI) 7 "v" "i").http = 200 ∧
    (custom_ai_request u1 (some tmplAI) 7 "v" "i").success = true ∧
    (custom_ai_request u1 (some tmplAI) 7 "v" "i").providerCalls = 0 := by
  decide

/-- Claim C5 (amended): only the email-to-task and social-content request
types are forwarded to the external AI provider before a result is
returned; the analyze-text and custom-request endpoints are TODO stubs
that return mock responses without ever contacting the provider. -/
theorem C5_only_core_types_forwarded :
    (∀ (u : User) (a t : String), (analyze_text u a t).providerCalls = 0) ∧
    (∀ (u : User) (tm : Option AITemplate) (reqId : Nat) (v i : String),
      (custom_ai_request u tm reqId v i).providerCalls = 0) ∧
    (∀ (u : User) (ex : Option AIUsageQuota) (mo : Option AIModel)
        (outcome : ApiOutcome) (reqId : Nat) (email : String) (r : ProcessResult),
      process_email_to_task u ex mo outcome reqId email = Except.ok r →
      r.providerCalls = 1) ∧
    (∀ (u : User) (ex : Option AIUsageQuota) (mo : Option AIModel)
        (outcome : ApiOutcome) (reqId : Nat) (bu pf : String) (r : ProcessResult),
      generate_filipino_social_content u ex mo outcome reqId bu pf = Except.ok r →
      r.providerCalls = 1) := by
  refine ⟨?_, ?_, ?_, ?_⟩
  · intro u a t
    unfold analyze_text
    split <;> rfl
  · intro u tm reqId v i
    unfold custom_ai_request
    split
    · rfl
    · cases tm <;> rfl
  · intro u ex mo outcome reqId email r h
    obtain ⟨hq, m, hm⟩ := process_email_ok_inv h
    subst hm
    cases outcome with
    | exn msg =>
      rw [process_email_exn_eq u ex m msg reqId email hq] at h
      injection h with h2
      subst h2
      rfl
    | ok pt ct tt rt content =>
      rw [process_email_ok_eq u ex m pt ct tt rt content reqId email hq] at h
      injection h with h2
      subst h2
      rfl
  · intro u ex mo outcome reqId bu pf r h
    obtain ⟨hq, m, hm⟩ := social_ok_inv h
    subst hm
    cases outcome with
    | exn msg =>
      rw [social_exn_eq u ex m msg reqId bu pf hq] at h
      injection h with h2
      subst h2
      rfl
    | ok pt ct tt rt content =>
      rw [social_ok_eq u ex m pt ct tt rt content reqId bu pf hq] at h
      injection h with h2
      subst h2
      rfl

/-- Witness for the amended C5 on a concrete successful service call. -/
theorem C5_only_core_types_forwarded_witness :
    r4.providerCalls = 1 :=
  C5_only_core_types_forwarded.2.2.1 u1 (some q6) (some modelA)
    (ApiOutcome.ok 10 5 15 100 "task-json") 7 "please pay the invoice" r4 (by rfl)

/-- Claim C7: the action list endpoint returns the actions of the owned
workflow sorted by ascending integer order (a permutation of the stored
rows), and creating a workflow from a template preserves each configured
order value (defaulting to 0) and appends exactly the configured actions. -/
theorem C7_actions_ordered :
    (∀ (db : Db) (u : User) (wid : Nat) (l : List AutomationAction),
      action_list db u wid = (200, some l) →
      List.Sorted actionLE l ∧ l.Perm (actionsOf db wid)) ∧
    (∀ (wid aid0 : Nat) (cfgs : List ActionTemplateCfg),
      (actionsFromTemplate wid aid0 cfgs).map (fun a => a.order) =
        cfgs.map (fun c => c.order.getD 0)) ∧
    (∀ (db : Db) (u : User) (t : AutomationTemplate) (wname : String)
        (wid aid0 now : Nat),
      ¬(t.is_premium = true ∧ u.subscription_tier = Tier.starter) →
      (create_workflow_from_template db u t wname wid aid0 now).2.actions =
        db.actions ++ actionsFromTemplate wid aid0 t.workflow_config.actions) := by
  refine ⟨?_, ?_, ?_⟩
  · intro db u wid l h
    cases hw : getOwnedWorkflow db u wid with
    | none => simp [action_list, hw] at h
    | some w =>
      simp [action_list, hw] at h
      have hwid : w.id = wid := by
        have hp := List.find?_some hw
        simp at hp
        exact hp.1
      subst h
      rw [hwid]
      exact ⟨List.sorted_insertionSort actionLE (actionsOf db wid),
        List.perm_insertionSort actionLE (actionsOf db wid)⟩
  · intro wid aid0 cfgs
    induction cfgs generalizing aid0 with
    | nil => rfl
    | cons c cs ih => simp [actionsFromTemplate, actionFromCfg, ih]
  · intro db u t wname wid aid0 now hprem
    have hb : (t.is_premium && (u.subscription_tier == Tier.starter)) = false := by
      rcases Bool.eq_false_or_eq_true t.is_premium with hp | hp
      · have hs : ¬ u.subscription_tier = Tier.starter := fun hs => hprem ⟨hp, hs⟩
        simp [hp, hs]
      · simp [hp]
    simp [create_workflow_from_template, hb]

/-- Witness for C7: listing the two out-of-order actions of db7. -/
theorem C7_actions_ordered_witness :
    List.Sorted actionLE (sortedActionsOf db7 10) ∧
    (sortedActionsOf db7 10).Perm (actionsOf db7 10) :=
  C7_actions_ordered.1 db7 u1 10 (sortedActionsOf db7 10) (by decide)

/-- Claim C9: toggle_workflow_status swaps active and paused (so applying
it twice restores the original status), answers 400 leaving the workflow
untouched when it is disabled, and never modifies any field other than
status and the auto-updated timestamp. -/
theorem C9_toggle_roundtrip :
    ∀ (w : AutomationWorkflow) (now now2 : Nat),
      (w.status = WStatus.active →
        toggle_workflow_status w now =
          (200, "Workflow paused successfully",
            { w with status := .paused, updated_at := now })) ∧
      (w.status = WStatus.paused →
        toggle_workflow_status w now =
          (200, "Workflow activated successfully",
            { w with status := .active, updated_at := now })) ∧
      ((w.status = WStatus.active ∨ w.status = WStatus.paused) →
        (toggle_workflow_status (toggle_workflow_status w now).2.2 now2).2.2 =
          { w with updated_at := now2 }) ∧
      (w.status = WStatus.disabled →
        toggle_workflow_status w now = (400, "Cannot toggle disabled workflow", w)) ∧
      (∀ c m w2, toggle_workflow_status w now = (c, m, w2) →
        w2 = { w with status := w2.status, updated_at := w2.updated_at }) := by
  intro w now now2
  refine ⟨?_, ?_, ?_, ?_, ?_⟩
  · intro h
    simp [toggle_workflow_status, h]
  · intro h
    simp [toggle_workflow_status, h]
  · rintro (h | h) <;> simp [toggle_workflow_status, h]
  · intro h
    simp [toggle_workflow_status, h]
  · intro c m w2 hw
    rcases hs : w.status <;> simp [toggle_workflow_status, hs] at hw <;>
      (obtain ⟨-, -, h2⟩ := hw; subst h2; rfl)

/-- Witness for C9 at a concrete active workflow. -/
theorem C9_toggle_roundtrip_witness :
    toggle_workflow_status wfActive 5 =
      (200, "Workflow paused successfully",
        { wfActive with status := .paused, updated_at := 5 }) :=
  (C9_toggle_roundtrip wfActive 5 6).1 rfl

/-- Claim C8: every embedded queryset over user-owned resources contains
only records owned by the requesting user, and the modifying workflow and
action endpoints answer 404 without touching the database when the
addressed workflow belongs to another user. -/
theorem C8_user_scoped_querysets :
    ∀ (db : Db) (uA uB : User), uA.id ≠ uB.id →
      (∀ w ∈ workflowsQS db uA.id, w.userId = uA.id ∧ w.userId ≠ uB.id) ∧
      (∀ r ∈ aiRequestsQS db uA.id, r.userId = uA.id ∧ r.userId ≠ uB.id) ∧
      (∀ i ∈ integrationsQS db uA.id, i.userId = uA.id ∧ i.userId ≠ uB.id) ∧
      (∀ e ∈ executionsQS db uA.id,
        workflowOwner db e.workflowId = some uA.id ∧
        workflowOwner db e.workflowId ≠ some uB.id) ∧
      (∀ l ∈ integrationLogsQS db uA.id,
        integrationOwner db l.integrationId = some uA.id ∧
        integrationOwner db l.integrationId ≠ some uB.id) ∧
      (∀ h ∈ webhooksQS db uA.id,
        integrationOwner db h.integrationId = some uA.id ∧
        integrationOwner db h.integrationId ≠ some uB.id) ∧
      (∀ (wid : Nat) (l : List AutomationAction),
        action_list db uA wid = (200, some l) →
        ∃ w, w ∈ db.workflows ∧ w.id = wid ∧ w.userId = uA.id) ∧
      (∀ (wid : Nat) (p : WorkflowPatch) (now : Nat),
        (∀ w ∈ db.workflows, w.id = wid → w.userId = uB.id) →
        update_workflow db uA wid p now = (404, db)) ∧
      (∀ wid : Nat, (∀ w ∈ db.workflows, w.id = wid → w.userId = uB.id) →
        delete_workflow db uA wid = (404, db)) ∧
      (∀ (wid : Nat) (d : ActionCreateData) (aid : Nat),
        (∀ w ∈ db.workflows, w.id = wid → w.userId = uB.id) →
        create_action db uA wid d aid = (404, db)) ∧
      (∀ wid aid : Nat, (∀ w ∈ db.workflows, w.id = wid → w.userId = uB.id) →
        delete_action db uA wid aid = (404, db)) := by
  intro db uA uB hne
  have hforeign : ∀ wid : Nat,
      (∀ w ∈ db.workflows, w.id = wid → w.userId = uB.id) →
      getOwnedWorkflow db uA wid = none := by
    intro wid hB
    unfold getOwnedWorkflow
    rw [List.find?_eq_none]
    intro x hx hcontra
    simp at hcontra
    exact hne (hcontra.2 ▸ hB x hx hcontra.1)
  refine ⟨?_, ?_, ?_, ?_, ?_, ?_, ?_, ?_, ?_, ?_, ?_⟩
  · intro w hw
    have h2 := (List.mem_filter.mp hw).2
    simp at h2
    exact ⟨h2, h2 ▸ hne⟩
  · intro r hr
    have h2 := (List.mem_filter.mp hr).2
    simp at h2
    exact ⟨h2, h2 ▸ hne⟩
  · intro i hi
    have h2 := (List.mem_filter.mp hi).2
    simp at h2
    exact ⟨h2, h2 ▸ hne⟩
  · intro e he
    have h2 := (List.mem_filter.mp he).2
    simp at h2
    refine ⟨h2, h2 ▸ ?_⟩
    intro hcontra
    exact hne (Option.some.inj hcontra)
  · intro l hl
    have h2 := (List.mem_filter.mp hl).2
    simp at h2
    refine ⟨h2, h2 ▸ ?_⟩
    intro hcontra
    exact hne (Option.some.inj hcontra)
  · intro h hh
    have h2 := (List.mem_filter.mp hh).2
    simp at h2
    refine ⟨h2, h2 ▸ ?_⟩
    intro hcontra
    exact hne (Option.some.inj hcontra)
  · intro wid l h
    cases hw : getOwnedWorkflow db uA wid with
    | none => simp [action_list, hw] at h
    | some w =>
      have hp := List.find?_some hw
      simp at hp
      exact ⟨w, List.mem_of_find?_eq_some hw, hp.1, hp.2⟩
  · intro wid p now hB
    simp [update_workflow, hforeign wid hB]
  · intro wid hB
    simp [delete_workflow, hforeign wid hB]
  · intro wid d aid hB
    simp [create_action, hforeign wid hB]
  · intro wid aid hB
    simp [delete_action, hforeign wid hB]

/-- Witness for C8: user u1 addressing the workflow of u2 gets 404 and
changes nothing. -/
theorem C8_user_scoped_querysets_witness :
    update_workflow db8 u1 20 emptyPatch 5 = (404, db8) :=
  (C8_user_scoped_querysets db8 u1 u2 (by decide)).2.2.2.2.2.2.2.1 20 emptyPatch 5
    (by decide)

/-- Claim C10: all derived percentage properties are guarded: each quota
percentage is 0 when its maximum is 0 and otherwise capped at 100, the
workflow success_rate is 0 when total_executions is 0, and the execution
success_percentage is 0 when no action completed or failed. -/
theorem C10_percentages_guarded :
    ∀ (q : AIUsageQuota) (w : AutomationWorkflow) (e : WorkflowExecution),
      (q.max_requests = 0 → q.requests_percentage = 0) ∧
      q.requests_percentage ≤ 100 ∧
      (q.max_tokens = 0 → q.tokens_percentage = 0) ∧
      q.tokens_percentage ≤ 100 ∧
      (q.max_cost_usd = 0 → q.cost_percentage = 0) ∧
      q.cost_percentage ≤ 100 ∧
      (w.total_executions = 0 → w.success_rate = 0) ∧
      (e.actions_completed + e.actions_failed = 0 → e.success_percentage = 0) := by
  intro q w e
  refine ⟨?_, ?_, ?_, ?_, ?_, ?_, ?_, ?_⟩
  · intro h
    simp [AIUsageQuota.requests_percentage, h]
  · unfold AIUsageQuota.requests_percentage
    split
    · norm_num
    · exact min_le_left _ _
  · intro h
    simp [AIUsageQuota.tokens_percentage, h]
  · unfold AIUsageQuota.tokens_percentage
    split
    · norm_num
    · exact min_le_left _ _
  · intro h
    simp [AIUsageQuota.cost_percentage, h]
  · unfold AIUsageQuota.cost_percentage
    split
    · norm_num
    · exact min_le_left _ _
  · intro h
    simp [AutomationWorkflow.success_rate, h]
  · intro h
    simp [WorkflowExecution.success_percentage, h]

/-- Witness for C10 at rows whose denominators are all zero. -/
theorem C10_percentages_guarded_witness :
    qZero.requests_percentage = 0 ∧ qZero.tokens_percentage = 0 ∧
    qZero.cost_percentage = 0 ∧ wfActive.success_rate = 0 ∧
    (freshExecution 1 10 "t").success_percentage = 0 :=
  have h := C10_percentages_guarded qZero wfActive (freshExecution 1 10 "t")
  ⟨h.1 rfl, h.2.2.1 rfl, h.2.2.2.2.1 rfl, h.2.2.2.2.2.2.1 rfl,
    h.2.2.2.2.2.2.2 rfl⟩

end AIyos
